import Mathlib

/-!
Shallow embedding of src/utils/sms_display.py: an L-train arrivals display
with an SMS override mode.  Global mutable state (mode flag, cached train
lines, pending revert timer, display subprocess handle) is modelled as an
explicit state record; each Python function becomes a state transformer
that also returns the list of observable side effects it performs.
-/

namespace SmsDisplay

/-- POLL_INTERVAL = 60 (seconds between API fetches). -/
def POLL_INTERVAL : Nat := 60

/-- SMS_DURATION = 30 (seconds to show SMS). -/
def SMS_DURATION : Nat := 30

/-- The wait(timeout=5) bound used before force-killing a display process. -/
def KILL_TIMEOUT : Nat := 5

/-- BEDFORD_N stop id (to Manhattan). -/
def BEDFORD_N : String := "L08N"

/-- BEDFORD_S stop id (to Brooklyn). -/
def BEDFORD_S : String := "L08S"

/-- The two values of the module-level mode flag: "train" or "sms". -/
inductive Mode where
  | train
  | sms
deriving DecidableEq, Repr

/-- A threading.Timer record: its identity and the armed duration. -/
structure TimerRec where
  tid : Nat
  duration : Nat
deriving DecidableEq, Repr

/-- Observable side effects performed by the display / webhook code. -/
inductive Event where
  | terminate : Nat → Event
  | waitOk : Nat → Event
  | forceKill : Nat → Nat → Event
  | spawn : Nat → Event
  | renderScroll : String → Event
  | write : Nat → String → Event
  | armTimer : Nat → Nat → Event
  | cancelTimer : Nat → Event
  | warn : String → Event
deriving DecidableEq, Repr

/-- The module-level mutable state of sms_display.py.  The field live is
the set (as a duplicate-free list) of pids of external render processes
whose poll() would still return None; next_pid and next_tid supply fresh
identities for spawned processes and armed timers. -/
structure St where
  mode : Mode
  train_lines : String × String
  sms_timer : Option TimerRec
  pending : List Nat
  display_proc : Option Nat
  live : List Nat
  next_pid : Nat
  next_tid : Nat
deriving DecidableEq, Repr

/-- Initial module state: mode "train", train_lines ("Loading...", ""),
no timer, no display process. -/
def initSt : St :=
  { mode := Mode.train
    train_lines := ("Loading...", "")
    sms_timer := none
    pending := []
    display_proc := none
    live := []
    next_pid := 0
    next_tid := 0 }

/-- A stop_time_update of a trip: its stop id and optional arrival time
(POSIX seconds). -/
structure StopTimeUpdate where
  stop_id : String
  arrival : Option Int
deriving DecidableEq, Repr

/-- A trip from the external transit feed. -/
structure Trip where
  line_id : String
  headed_for : String
  underway : Bool
  stop_time_updates : List StopTimeUpdate
deriving DecidableEq, Repr

/-- The fetched feed: a list of trips. -/
structure Feed where
  trips : List Trip
deriving DecidableEq, Repr

/-- The external environment of one cycle: clock, feed outcome, binary
availability, process responsiveness and stdin write outcomes. -/
structure Env where
  now : Int
  hasGtfs : Bool
  feedRaises : Bool
  feed : Option Feed
  responsive : Nat → Bool
  textExampleExists : Bool
  scrollerExists : Bool
  fontExists : Bool
  writeOk1 : Bool
  writeOk2 : Bool
  interrupted : Bool

/-- Python str.strip(): drop whitespace from both ends. -/
def pyStrip (s : String) : String :=
  String.mk (((s.data.dropWhile Char.isWhitespace).reverse.dropWhile
    Char.isWhitespace).reverse)

/-- feed.filter_trips(line_id="L", headed_for_stop_id=stop, underway=True). -/
def filter_trips (f : Feed) (stop : String) : List Trip :=
  f.trips.filter (fun t => t.line_id == "L" && t.headed_for == stop && t.underway)

/-- The minute values collected by the loops inside next_arrivals: for each
stop_time_update at the given stop with an arrival time, the truncated
minute count, kept only when strictly more than 6. -/
def eligible_mins (trips : List Trip) (stop_id : String) (now : Int) : List Int :=
  trips.flatMap (fun trip =>
    trip.stop_time_updates.filterMap (fun stu =>
      if stu.stop_id = stop_id then
        match stu.arrival with
        | some ts =>
          let mins := (ts - now).tdiv 60
          if mins > 6 then some mins else none
        | none => none
      else none))

/-- next_arrivals(trips, stop_id, count): collect eligible minute counts,
sort ascending, keep the first count. -/
def next_arrivals (trips : List Trip) (stop_id : String) (now : Int)
    (count : Nat) : List Int :=
  ((eligible_mins trips stop_id now).insertionSort (· ≤ ·)).take count

/-- fmt(times): "--" when empty, else comma-joined decimal minute counts. -/
def fmt (times : List Int) : String :=
  if times.isEmpty then "--"
  else String.intercalate "," (times.map toString)

/-- _fetch_train_times(): returns the (brooklyn_str, manhattan_str) pair.
Failure branches, in the order the code reaches them: no GTFS library,
an exception inside the try block, a fetch timeout; otherwise format the
next arrivals of each direction with a B: or M: leading tag. -/
def fetch_train_times (env : Env) : String × String :=
  if env.hasGtfs = false then ("No GTFS", "")
  else if env.feedRaises then ("L error", "")
  else
    match env.feed with
    | none => ("L timeout", "")
    | some feed =>
      let manhattan_trains := filter_trips feed BEDFORD_N
      let brooklyn_trains := filter_trips feed BEDFORD_S
      let m_times := next_arrivals manhattan_trains BEDFORD_N env.now 2
      let b_times := next_arrivals brooklyn_trains BEDFORD_S env.now 2
      ("B:" ++ fmt b_times, "M:" ++ fmt m_times)

/-- _kill_display(): if the tracked process is alive, terminate it, wait up
to KILL_TIMEOUT, force-kill when the wait times out; in every case the
handle is set back to None. -/
def kill_display (env : Env) (s : St) : St × List Event :=
  match s.display_proc with
  | some p =>
    if p ∈ s.live then
      ({ s with display_proc := none, live := s.live.erase p },
       if env.responsive p then [Event.terminate p, Event.waitOk p]
       else [Event.terminate p, Event.forceKill p KILL_TIMEOUT])
    else ({ s with display_proc := none }, [])
  | none => ({ s with display_proc := none }, [])

/-- The error raised by subprocess.Popen on a missing binary. -/
inductive StartErr where
  | fileNotFound
deriving DecidableEq, Repr

/-- _start_text_example(): kill the current display process, then Popen the
text-example binary; a missing binary makes Popen raise, after the kill
side effects already happened. -/
def start_text_example (env : Env) (s : St) :
    St × List Event × Except StartErr Nat :=
  let r := kill_display env s
  if env.textExampleExists then
    let p := r.1.next_pid
    ({ r.1 with
         display_proc := some p
         live := r.1.live ++ [p]
         next_pid := p + 1 },
     r.2 ++ [Event.spawn p], Except.ok p)
  else (r.1, r.2, Except.error StartErr.fileNotFound)

/-- _show_scroll(text): kill the current display process, then, only when
the text-scroller binary exists and is executable, Popen it with the text
as trailing argument; otherwise return silently. -/
def show_scroll (env : Env) (text : String) (s : St) : St × List Event :=
  let r := kill_display env s
  if env.scrollerExists then
    let p := r.1.next_pid
    ({ r.1 with
         display_proc := some p
         live := r.1.live ++ [p]
         next_pid := p + 1 },
     Event.renderScroll text :: r.2 ++ [Event.spawn p])
  else (r.1, Event.renderScroll text :: r.2)

/-- _switch_to_train(): set the mode flag back to "train". -/
def switch_to_train (s : St) : St :=
  { s with mode := Mode.train }

/-- A threading.Timer firing: only a still-pending timer runs its callback
_switch_to_train; the fired timer leaves the pending set.  The _sms_timer
variable itself is not cleared by the callback. -/
def timer_fired (tid : Nat) (s : St) : St :=
  if tid ∈ s.pending then switch_to_train { s with pending := s.pending.erase tid }
  else s

/-- The observable response of the /sms route. -/
structure SmsResult where
  state : St
  reply : String
  status : Nat
  events : List Event
deriving Repr

/-- incoming_sms(): strip the body; an empty body answers "Empty message."
without touching any state; a non-empty body sets mode to "sms", cancels
the previous timer when present, shows the scrolling text, then arms and
starts a fresh SMS_DURATION timer, answering with an echo of the
duration. -/
def incoming_sms (env : Env) (body_raw : String) (s : St) : SmsResult :=
  let body := pyStrip body_raw
  if body.isEmpty then
    { state := s, reply := "Empty message.", status := 200, events := [] }
  else
    let s1 := { s with mode := Mode.sms }
    let cancelStep :=
      match s1.sms_timer with
      | some t => ({ s1 with pending := s1.pending.erase t.tid },
                   [Event.cancelTimer t.tid])
      | none => (s1, ([] : List Event))
    let scrollStep := show_scroll env body cancelStep.1
    let t : TimerRec := { tid := scrollStep.1.next_tid, duration := SMS_DURATION }
    let s4 := { scrollStep.1 with
                  sms_timer := some t
                  pending := scrollStep.1.pending ++ [t.tid]
                  next_tid := scrollStep.1.next_tid + 1 }
    { state := s4
      reply := "Displaying for " ++ toString SMS_DURATION ++ "s: " ++ body
      status := 200
      events := cancelStep.2 ++ scrollStep.2 ++ [Event.armTimer t.tid SMS_DURATION] }

/-- clear_display(): kill the display process under the lock and answer
with status "cleared". -/
def clear_display (env : Env) (s : St) : St × List Event × String :=
  let r := kill_display env s
  (r.1, r.2, "cleared")

/-- The JSON answered by the /health route. -/
structure HealthReport where
  status : String
  mode : Mode
  displaying : Bool
deriving DecidableEq, Repr

/-- health(): displaying is true exactly when a display process handle is
set and its poll() still returns None. -/
def health (s : St) : HealthReport :=
  { status := "ok"
    mode := s.mode
    displaying :=
      match s.display_proc with
      | some p => s.live.contains p
      | none => false }

/-- The loop-local variables of _train_loop: last_fetch and the local
process handle. -/
structure LoopSt where
  last_fetch : Int
  proc : Option Nat
deriving DecidableEq, Repr

/-- Lines 195-212 of the loop body: write both train lines stacked to the
process stdin, sleep interruptibly, then write a blank line to clear; a
failed write or an interrupt drops the local handle for the next
iteration. -/
def write_phase (env : Env) (lf : Int) (p : Nat) (s : St) (evs : List Event) :
    LoopSt × St × List Event × Except StartErr Unit :=
  if env.writeOk1 then
    let evs1 := evs ++ [Event.write p (s.train_lines.1 ++ "\n" ++ s.train_lines.2 ++ "\n")]
    if env.interrupted then
      ({ last_fetch := lf, proc := none }, s, evs1, Except.ok ())
    else if env.writeOk2 then
      ({ last_fetch := lf, proc := some p }, s, evs1 ++ [Event.write p "\n"],
       Except.ok ())
    else
      ({ last_fetch := lf, proc := none }, s, evs1, Except.ok ())
  else
    ({ last_fetch := lf, proc := none }, s, evs, Except.ok ())

/-- Lines 188-193 of the loop body followed by the write phase: when the
local handle is absent or dead, re-check the mode under the lock and
restart text-example; a Popen failure escapes the loop body as an
exception. -/
def restart_and_write (env : Env) (lf : Int) (lsproc : Option Nat) (s : St) :
    LoopSt × St × List Event × Except StartErr Unit :=
  if s.mode ≠ Mode.train then
    ({ last_fetch := lf, proc := lsproc }, s, [], Except.ok ())
  else
    let r := start_text_example env s
    match r.2.2 with
    | Except.error e => ({ last_fetch := lf, proc := none }, r.1, r.2.1,
                         Except.error e)
    | Except.ok p => write_phase env lf p r.1 r.2.1

/-- One iteration of the while-loop body of _train_loop.  A non-train mode
skips the whole body after dropping the local handle; otherwise a fetch
happens when POLL_INTERVAL has elapsed and its result is stored into
train_lines unconditionally, then the display process is kept alive and
fed the two stacked lines. -/
def train_loop_iter (env : Env) (ls : LoopSt) (s : St) :
    LoopSt × St × List Event × Except StartErr Unit :=
  if s.mode ≠ Mode.train then
    ({ ls with proc := none }, s, [], Except.ok ())
  else
    let fetchDue := env.now - ls.last_fetch ≥ (POLL_INTERVAL : Int)
    let s1 := if fetchDue then { s with train_lines := fetch_train_times env } else s
    let lf1 := if fetchDue then env.now else ls.last_fetch
    match ls.proc with
    | some p =>
      if s1.live.contains p then write_phase env lf1 p s1 []
      else restart_and_write env lf1 (some p) s1
    | none => restart_and_write env lf1 none s1

/-- A render process exiting on its own: its poll() stops returning None. -/
def proc_died (p : Nat) (s : St) : St :=
  { s with live := s.live.erase p }

/-- The startup warnings printed by main() for missing binaries and font. -/
def startup_warnings (env : Env) : List String :=
  (if env.textExampleExists = false then ["WARNING: text-example not found."] else []) ++
  (if env.scrollerExists = false then ["WARNING: text-scroller not found. Run make in utils/."] else []) ++
  (if env.fontExists = false then ["WARNING: Font not found"] else [])

/-- The operations that touch the shared module state. -/
inductive Op where
  | sms : String → Op
  | fire : Nat → Op
  | iter : LoopSt → Op
  | clear : Op
  | died : Nat → Op

/-- The shared-state effect of each operation. -/
def step (env : Env) (o : Op) (s : St) : St :=
  match o with
  | Op.sms body => (incoming_sms env body s).state
  | Op.fire tid => timer_fired tid s
  | Op.iter ls => (train_loop_iter env ls s).2.1
  | Op.clear => (clear_display env s).1
  | Op.died p => proc_died p s

/-! Concrete inputs used by witnesses and counterexamples. -/

/-- A stop_time_update at the Brooklyn-bound Bedford stop, 600 seconds out. -/
def stu1 : StopTimeUpdate := { stop_id := "L08S", arrival := some 700 }

/-- An underway L trip headed for the Brooklyn-bound Bedford stop. -/
def trip1 : Trip :=
  { line_id := "L"
    headed_for := "L08S"
    underway := true
    stop_time_updates := [stu1] }

/-- An environment where everything works: feed present, binaries present,
writes succeed. -/
def envGood : Env :=
  { now := 100
    hasGtfs := true
    feedRaises := false
    feed := some { trips := [trip1] }
    responsive := fun _ => true
    textExampleExists := true
    scrollerExists := true
    fontExists := true
    writeOk1 := true
    writeOk2 := true
    interrupted := false }

/-- The same environment one cycle later, with the fetch raising. -/
def envFail : Env := { envGood with now := 200, feedRaises := true }

/-- Loop-local variables at startup: last_fetch = 0, no process. -/
def lsC1 : LoopSt := { last_fetch := 0, proc := none }

/-- The initial state with the mode flag set to "sms". -/
def sSms : St := { initSt with mode := Mode.sms }

/-! Field-preservation lemmas for the display helpers. -/

@[simp]
lemma kill_display_mode (env : Env) (s : St) :
    (kill_display env s).1.mode = s.mode := by
  unfold kill_display
  split <;> first | rfl | (split <;> rfl)

@[simp]
lemma kill_display_train_lines (env : Env) (s : St) :
    (kill_display env s).1.train_lines = s.train_lines := by
  unfold kill_display
  split <;> first | rfl | (split <;> rfl)

@[simp]
lemma kill_display_sms_timer (env : Env) (s : St) :
    (kill_display env s).1.sms_timer = s.sms_timer := by
  unfold kill_display
  split <;> first | rfl | (split <;> rfl)

@[simp]
lemma kill_display_pending (env : Env) (s : St) :
    (kill_display env s).1.pending = s.pending := by
  unfold kill_display
  split <;> first | rfl | (split <;> rfl)

@[simp]
lemma kill_display_next_tid (env : Env) (s : St) :
    (kill_display env s).1.next_tid = s.next_tid := by
  unfold kill_display
  split <;> first | rfl | (split <;> rfl)

@[simp]
lemma kill_display_next_pid (env : Env) (s : St) :
    (kill_display env s).1.next_pid = s.next_pid := by
  unfold kill_display
  split <;> first | rfl | (split <;> rfl)

@[simp]
lemma kill_display_display_proc (env : Env) (s : St) :
    (kill_display env s).1.display_proc = none := by
  unfold kill_display
  split <;> first | rfl | (split <;> rfl)

/-- A state whose display handle is already None is left unchanged by
_kill_display, with no side effect. -/
lemma kill_display_of_none (env : Env) (s : St) (h : s.display_proc = none) :
    kill_display env s = (s, []) := by
  unfold kill_display
  rw [h]
  have hs : s = { s with display_proc := none } := by rw [← h]
  rw [← hs]

@[simp]
lemma show_scroll_mode (env : Env) (text : String) (s : St) :
    (show_scroll env text s).1.mode = s.mode := by
  unfold show_scroll
  split <;> simp

@[simp]
lemma show_scroll_train_lines (env : Env) (text : String) (s : St) :
    (show_scroll env text s).1.train_lines = s.train_lines := by
  unfold show_scroll
  split <;> simp

@[simp]
lemma show_scroll_sms_timer (env : Env) (text : String) (s : St) :
    (show_scroll env text s).1.sms_timer = s.sms_timer := by
  unfold show_scroll
  split <;> simp

@[simp]
lemma show_scroll_pending (env : Env) (text : String) (s : St) :
    (show_scroll env text s).1.pending = s.pending := by
  unfold show_scroll
  split <;> simp

@[simp]
lemma show_scroll_next_tid (env : Env) (text : String) (s : St) :
    (show_scroll env text s).1.next_tid = s.next_tid := by
  unfold show_scroll
  split <;> simp

@[simp]
lemma start_text_example_mode (env : Env) (s : St) :
    (start_text_example env s).1.mode = s.mode := by
  unfold start_text_example
  split <;> simp

@[simp]
lemma start_text_example_train_lines (env : Env) (s : St) :
    (start_text_example env s).1.train_lines = s.train_lines := by
  unfold start_text_example
  split <;> simp

@[simp]
lemma start_text_example_sms_timer (env : Env) (s : St) :
    (start_text_example env s).1.sms_timer = s.sms_timer := by
  unfold start_text_example
  split <;> simp

@[simp]
lemma start_text_example_pending (env : Env) (s : St) :
    (start_text_example env s).1.pending = s.pending := by
  unfold start_text_example
  split <;> simp

@[simp]
lemma start_text_example_next_tid (env : Env) (s : St) :
    (start_text_example env s).1.next_tid = s.next_tid := by
  unfold start_text_example
  split <;> simp

@[simp]
lemma write_phase_state (env : Env) (lf : Int) (p : Nat) (s : St)
    (evs : List Event) : (write_phase env lf p s evs).2.1 = s := by
  unfold write_phase
  split
  · split
    · rfl
    · split <;> rfl
  · rfl

lemma restart_and_write_shared (env : Env) (lf : Int) (pr : Option Nat) (s : St) :
    (restart_and_write env lf pr s).2.1.train_lines = s.train_lines ∧
    (restart_and_write env lf pr s).2.1.pending = s.pending ∧
    (restart_and_write env lf pr s).2.1.sms_timer = s.sms_timer ∧
    (restart_and_write env lf pr s).2.1.next_tid = s.next_tid := by
  unfold restart_and_write
  split
  · exact ⟨rfl, rfl, rfl, rfl⟩
  · dsimp only
    cases hr : (start_text_example env s).2.2 <;> simp

lemma train_loop_iter_shared (env : Env) (ls : LoopSt) (s : St)
    (hm : s.mode = Mode.train) :
    (train_loop_iter env ls s).2.1.train_lines =
      (if env.now - ls.last_fetch ≥ (POLL_INTERVAL : Int)
       then fetch_train_times env else s.train_lines) ∧
    (train_loop_iter env ls s).2.1.pending = s.pending ∧
    (train_loop_iter env ls s).2.1.sms_timer = s.sms_timer ∧
    (train_loop_iter env ls s).2.1.next_tid = s.next_tid := by
  unfold train_loop_iter restart_and_write
  rw [if_neg (by simp [hm])]
  dsimp only
  by_cases hdue : env.now - ls.last_fetch ≥ (POLL_INTERVAL : Int)
  · simp only [if_pos hdue]
    repeat' split
    all_goals simp
  · simp only [if_neg hdue]
    repeat' split
    all_goals simp

/-! Claim theorems. -/

/-- C2 counterexample: with mode = sms, a loop iteration with a fresh
successful fetch available leaves the stored train lines unchanged, so the
claim that a Tick in Sms mode updates TrainStatus to the new value is
false on this concrete input. -/
theorem c2_counterexample :
    (train_loop_iter envGood lsC1 sSms).2.1 = sSms ∧
    sSms.train_lines = ("Loading...", "") ∧
    fetch_train_times envGood = ("B:10", "M:--") ∧
    ¬ (train_loop_iter envGood lsC1 sSms).2.1.train_lines = ("B:10", "M:--") := by
  decide

/-- C2 (amended): while the mode is Sms, one iteration of the polling loop
is a complete no-op on the shared state: it performs no fetch, leaves the
stored TrainStatus untouched, renders nothing, and only drops its local
process handle. -/
theorem c2_sms_tick_skips_everything (env : Env) (ls : LoopSt) (s : St)
    (h : s.mode = Mode.sms) :
    train_loop_iter env ls s = ({ ls with proc := none }, s, [], Except.ok ()) := by
  unfold train_loop_iter
  rw [if_pos (by simp [h])]

/-- C2 witness: the amended theorem applied at a concrete sms-mode state. -/
theorem c2_sms_tick_skips_everything_witness :
    sSms.mode = Mode.sms ∧
    train_loop_iter envGood lsC1 sSms = ({ lsC1 with proc := none }, sSms, [], Except.ok ()) :=
  ⟨by decide, c2_sms_tick_skips_everything envGood lsC1 sSms (by decide)⟩

/-- C7: an inbound request whose body strips to the empty string answers
"Empty message." and leaves every component of the display state exactly
as it was: mode, train lines, timers and the render process. -/
theorem c7_empty_body_no_side_effects (env : Env) (body : String) (s : St)
    (h : (pyStrip body).isEmpty = true) :
    incoming_sms env body s =
      { state := s, reply := "Empty message.", status := 200, events := [] } := by
  simp [incoming_sms, h]

/-- C7 witness: the empty-body theorem applied at a whitespace body. -/
theorem c7_empty_body_no_side_effects_witness :
    (pyStrip "  ").isEmpty = true ∧
    incoming_sms envGood "  " initSt =
      { state := initSt, reply := "Empty message.", status := 200, events := [] } :=
  ⟨by decide, c7_empty_body_no_side_effects envGood "  " initSt (by decide)⟩

/-- C9: Clear is idempotent and mode-preserving: after one clear the health
snapshot reports displaying = false with the prior mode, and a second
clear returns the very same state with no kill side effect and the same
"cleared" acknowledgement, after which health reports the same snapshot. -/
theorem c9_clear_idempotent (env : Env) (s : St) :
    health (clear_display env s).1 =
      { status := "ok", mode := s.mode, displaying := false } ∧
    (clear_display env s).1.mode = s.mode ∧
    (clear_display env s).1.train_lines = s.train_lines ∧
    (clear_display env s).1.sms_timer = s.sms_timer ∧
    (clear_display env s).1.pending = s.pending ∧
    clear_display env (clear_display env s).1 =
      ((clear_display env s).1, [], "cleared") ∧
    health (clear_display env (clear_display env s).1).1 =
      { status := "ok", mode := s.mode, displaying := false } := by
  have hceq : ∀ s₀ : St, clear_display env s₀ =
      ((kill_display env s₀).1, (kill_display env s₀).2, "cleared") :=
    fun _ => rfl
  have h1 : (clear_display env s).1.display_proc = none := by
    rw [hceq]
    exact kill_display_display_proc env s
  have h2 : clear_display env (clear_display env s).1 =
      ((clear_display env s).1, [], "cleared") := by
    rw [hceq (clear_display env s).1, kill_display_of_none env _ h1]
  refine ⟨?_, ?_, ?_, ?_, ?_, h2, ?_⟩
  · simp [health, hceq]
  · simp [hceq]
  · simp [hceq]
  · simp [hceq]
  · simp [hceq]
  · rw [h2]
    simp [health, hceq]

/-- The state after a first polling cycle against the working feed. -/
def c1r1 : LoopSt × St × List Event × Except StartErr Unit :=
  train_loop_iter envGood lsC1 initSt

/-- The state after a second polling cycle whose fetch raises. -/
def c1r2 : LoopSt × St × List Event × Except StartErr Unit :=
  train_loop_iter envFail c1r1.1 c1r1.2.1

/-- C1 counterexample: a successful cycle stores ("B:10", "M:--"); the next
cycle, whose fetch raises, stores the error placeholder ("L error", "")
instead of retaining the stale value, so the claim that the stored
TrainStatus is unchanged across a failed cycle is false on this input. -/
theorem c1_counterexample :
    c1r1.2.1.train_lines = ("B:10", "M:--") ∧
    c1r2.2.1.train_lines = ("L error", "") ∧
    ¬ c1r2.2.1.train_lines = c1r1.2.1.train_lines := by
  decide

/-- C1 (amended): a polling cycle in train mode whose fetch interval has
elapsed stores the fetch result unconditionally; when the fetch raises the
stored value becomes ("L error", ""), and when it times out the stored
value becomes ("L timeout", "") — the stale value is not retained. -/
theorem c1_fetch_failure_stores_placeholder (env : Env) (ls : LoopSt) (s : St)
    (hm : s.mode = Mode.train)
    (hdue : env.now - ls.last_fetch ≥ (POLL_INTERVAL : Int)) :
    (train_loop_iter env ls s).2.1.train_lines = fetch_train_times env ∧
    (env.hasGtfs = true → env.feedRaises = true →
      fetch_train_times env = ("L error", "")) ∧
    (env.hasGtfs = true → env.feedRaises = false → env.feed = none →
      fetch_train_times env = ("L timeout", "")) := by
  refine ⟨?_, ?_, ?_⟩
  · have h := train_loop_iter_shared env ls s hm
    rw [h.1, if_pos hdue]
  · intro h1 h2
    simp [fetch_train_times, h1, h2]
  · intro h1 h2 h3
    simp [fetch_train_times, h1, h2, h3]

/-- C1 witness: the amended theorem applied at the concrete failing cycle. -/
theorem c1_fetch_failure_stores_placeholder_witness :
    initSt.mode = Mode.train ∧
    envFail.now - lsC1.last_fetch ≥ (POLL_INTERVAL : Int) ∧
    ((train_loop_iter envFail lsC1 initSt).2.1.train_lines = fetch_train_times envFail ∧
     (envFail.hasGtfs = true → envFail.feedRaises = true →
       fetch_train_times envFail = ("L error", "")) ∧
     (envFail.hasGtfs = true → envFail.feedRaises = false → envFail.feed = none →
       fetch_train_times envFail = ("L timeout", ""))) :=
  ⟨by decide, by decide,
   c1_fetch_failure_stores_placeholder envFail lsC1 initSt (by decide) (by decide)⟩

/-- Every minute count collected by next_arrivals is strictly greater
than 6. -/
lemma eligible_mins_gt (trips : List Trip) (stop : String) (now : Int) :
    ∀ m ∈ eligible_mins trips stop now, 6 < m := by
  intro m hm
  simp only [eligible_mins, List.mem_flatMap, List.mem_filterMap] at hm
  obtain ⟨trip, -, stu, -, hsome⟩ := hm
  split at hsome
  · split at hsome
    · split at hsome
      · simp only [Option.some.injEq] at hsome
        omega
      · simp at hsome
    · simp at hsome
  · simp at hsome

/-- C10: the per-direction train status includes only arrivals strictly
more than 6 minutes away, sorted ascending and truncated to 2 entries; the
format is a comma-joined minute list, "--" when empty, and the success pair
carries B: and M: leading tags for the Brooklyn and Manhattan stops. -/
theorem c10_arrival_formatting (trips : List Trip) (stop : String) (now : Int) :
    (next_arrivals trips stop now 2).Sorted (· ≤ ·) ∧
    (next_arrivals trips stop now 2).length ≤ 2 ∧
    (∀ m ∈ next_arrivals trips stop now 2,
      6 < m ∧ m ∈ eligible_mins trips stop now) ∧
    fmt [] = "--" ∧
    (∀ ts : List Int, ts ≠ [] → fmt ts = String.intercalate "," (ts.map toString)) ∧
    (∀ env feed, env.hasGtfs = true → env.feedRaises = false →
      env.feed = some feed →
      fetch_train_times env =
        ("B:" ++ fmt (next_arrivals (filter_trips feed BEDFORD_S) BEDFORD_S env.now 2),
         "M:" ++ fmt (next_arrivals (filter_trips feed BEDFORD_N) BEDFORD_N env.now 2))) := by
  refine ⟨?_, ?_, ?_, rfl, ?_, ?_⟩
  · exact List.Pairwise.sublist (List.take_sublist _ _)
      (List.sorted_insertionSort _ _)
  · exact List.length_take_le _ _
  · intro m hm
    have hmem : m ∈ eligible_mins trips stop now := by
      have h1 : m ∈ (eligible_mins trips stop now).insertionSort (· ≤ ·) :=
        List.take_subset _ _ hm
      exact (List.mem_insertionSort _).1 h1
    exact ⟨eligible_mins_gt trips stop now m hmem, hmem⟩
  · intro ts h
    cases ts with
    | nil => exact absurd rfl h
    | cons a t => rfl
  · intro env feed h1 h2 h3
    simp [fetch_train_times, h1, h2, h3]

/-- C10 witness: the formatting theorem applied at a concrete feed. -/
theorem c10_arrival_formatting_witness :
    (next_arrivals [trip1] BEDFORD_S 100 2).Sorted (· ≤ ·) ∧
    (next_arrivals [trip1] BEDFORD_S 100 2).length ≤ 2 ∧
    (∀ m ∈ next_arrivals [trip1] BEDFORD_S 100 2,
      6 < m ∧ m ∈ eligible_mins [trip1] BEDFORD_S 100) ∧
    fmt [] = "--" ∧
    (∀ ts : List Int, ts ≠ [] → fmt ts = String.intercalate "," (ts.map toString)) ∧
    (∀ env feed, env.hasGtfs = true → env.feedRaises = false →
      env.feed = some feed →
      fetch_train_times env =
        ("B:" ++ fmt (next_arrivals (filter_trips feed BEDFORD_S) BEDFORD_S env.now 2),
         "M:" ++ fmt (next_arrivals (filter_trips feed BEDFORD_N) BEDFORD_N env.now 2))) :=
  c10_arrival_formatting [trip1] BEDFORD_S 100

/-! Timer invariant: at most one pending revert timer. -/

/-- The timer invariant: at most one pending timer, every pending timer id
is the one held by the _sms_timer variable, and every armed timer id is
below the fresh-id counter. -/
def TimerInv (s : St) : Prop :=
  s.pending.length ≤ 1 ∧
  (∀ tid ∈ s.pending, ∃ t, s.sms_timer = some t ∧ t.tid = tid) ∧
  (∀ t, s.sms_timer = some t → t.tid < s.next_tid)

lemma pending_nil_of_none (s : St) (hInv : TimerInv s)
    (ht : s.sms_timer = none) : s.pending = [] := by
  obtain ⟨-, hmem, -⟩ := hInv
  cases hp : s.pending with
  | nil => rfl
  | cons a rest =>
    obtain ⟨t2, ht2, -⟩ := hmem a (by rw [hp]; exact List.mem_cons_self a rest)
    rw [ht] at ht2
    simp at ht2

lemma pending_erase_of_inv (s : St) (t : TimerRec) (hInv : TimerInv s)
    (ht : s.sms_timer = some t) : s.pending.erase t.tid = [] := by
  obtain ⟨hlen, hmem, -⟩ := hInv
  cases hp : s.pending with
  | nil => simp
  | cons a rest =>
    cases rest with
    | nil =>
      obtain ⟨t2, ht2, htid⟩ :=
        hmem a (by rw [hp]; exact List.mem_singleton_self a)
      rw [ht, Option.some.injEq] at ht2
      rw [ht2, htid]
      simp
    | cons b rest2 =>
      rw [hp] at hlen
      simp at hlen

/-- A loop iteration outside train mode leaves the shared state alone. -/
lemma train_loop_iter_nontrain (env : Env) (ls : LoopSt) (s : St)
    (hm : ¬ s.mode = Mode.train) :
    train_loop_iter env ls s = ({ ls with proc := none }, s, [], Except.ok ()) := by
  unfold train_loop_iter
  rw [if_pos hm]

/-- The state facts of a non-empty inbound SMS: fresh singleton pending
set, fresh SMS_DURATION timer, bumped id counter, mode sms. -/
lemma incoming_sms_state_facts (env : Env) (body : String) (s : St)
    (hInv : TimerInv s) (hne : (pyStrip body).isEmpty = false) :
    (incoming_sms env body s).state.pending = [s.next_tid] ∧
    (incoming_sms env body s).state.sms_timer =
      some { tid := s.next_tid, duration := SMS_DURATION } ∧
    (incoming_sms env body s).state.next_tid = s.next_tid + 1 ∧
    (incoming_sms env body s).state.mode = Mode.sms := by
  cases hst : s.sms_timer with
  | none =>
    have hp : s.pending = [] := pending_nil_of_none s hInv hst
    refine ⟨?_, ?_, ?_, ?_⟩ <;> simp [incoming_sms, hne, hst, hp]
  | some t0 =>
    have hp : s.pending.erase t0.tid = [] := pending_erase_of_inv s t0 hInv hst
    refine ⟨?_, ?_, ?_, ?_⟩ <;> simp [incoming_sms, hne, hst, hp]

/-- Transport of the timer invariant along an operation that leaves the
timer-related fields unchanged. -/
lemma timerInv_of_fields (s s2 : St) (hInv : TimerInv s)
    (hp : s2.pending = s.pending) (ht : s2.sms_timer = s.sms_timer)
    (hn : s2.next_tid = s.next_tid) : TimerInv s2 := by
  obtain ⟨h1, h2, h3⟩ := hInv
  refine ⟨by rw [hp]; exact h1, ?_, ?_⟩
  · intro tid htid
    rw [hp] at htid
    obtain ⟨t, ht2, htt⟩ := h2 tid htid
    exact ⟨t, by rw [ht]; exact ht2, htt⟩
  · intro t ht2
    rw [ht] at ht2
    rw [hn]
    exact h3 t ht2

/-- Every shared-state operation preserves the timer invariant. -/
lemma timerInv_step (env : Env) (o : Op) (s : St) (hInv : TimerInv s) :
    TimerInv (step env o s) := by
  cases o with
  | sms body =>
    show TimerInv (incoming_sms env body s).state
    by_cases he : (pyStrip body).isEmpty = true
    · have heq : incoming_sms env body s =
          { state := s, reply := "Empty message.", status := 200, events := [] } := by
        simp [incoming_sms, he]
      rw [heq]
      exact hInv
    · have hne : (pyStrip body).isEmpty = false := by
        cases h : (pyStrip body).isEmpty
        · rfl
        · exact absurd h he
      obtain ⟨hp, ht, hn, -⟩ := incoming_sms_state_facts env body s hInv hne
      refine ⟨?_, ?_, ?_⟩
      · rw [hp]
        simp
      · intro tid htid
        rw [hp] at htid
        simp at htid
        subst htid
        exact ⟨_, ht, rfl⟩
      · intro t ht2
        rw [ht, Option.some.injEq] at ht2
        rw [hn, ← ht2]
        simp
  | fire tid =>
    show TimerInv (timer_fired tid s)
    unfold timer_fired
    split
    · obtain ⟨h1, h2, h3⟩ := hInv
      refine ⟨?_, ?_, ?_⟩
      · show ((s.pending.erase tid).length) ≤ 1
        exact le_trans (List.erase_sublist tid s.pending).length_le h1
      · intro x hx
        exact h2 x (List.mem_of_mem_erase hx)
      · exact h3
    · exact hInv
  | iter ls =>
    show TimerInv (train_loop_iter env ls s).2.1
    by_cases hm : s.mode = Mode.train
    · obtain ⟨-, hp, ht, hn⟩ := train_loop_iter_shared env ls s hm
      exact timerInv_of_fields s _ hInv hp ht hn
    · rw [train_loop_iter_nontrain env ls s hm]
      exact hInv
  | clear =>
    show TimerInv (kill_display env s).1
    exact timerInv_of_fields s _ hInv (kill_display_pending env s)
      (kill_display_sms_timer env s) (kill_display_next_tid env s)
  | died p =>
    exact timerInv_of_fields s _ hInv rfl rfl rfl

/-- C4: the initial state satisfies the timer invariant, every operation
preserves it (so at most one revert timer is ever pending), and each
non-empty inbound SMS cancels the prior pending timer and leaves exactly
its own fresh SMS_DURATION timer pending, which therefore governs the next
reversion. -/
theorem c4_at_most_one_pending_timer :
    TimerInv initSt ∧
    (∀ env o s, TimerInv s → TimerInv (step env o s)) ∧
    (∀ env body s, TimerInv s → (pyStrip body).isEmpty = false →
      (incoming_sms env body s).state.pending = [s.next_tid] ∧
      (incoming_sms env body s).state.sms_timer =
        some { tid := s.next_tid, duration := SMS_DURATION }) := by
  refine ⟨?_, ?_, ?_⟩
  · refine ⟨by simp [initSt], ?_, ?_⟩
    · intro tid h
      simp [initSt] at h
    · intro t h
      simp [initSt] at h
  · intro env o s h
    exact timerInv_step env o s h
  · intro env body s h hne
    obtain ⟨hp, ht, -, -⟩ := incoming_sms_state_facts env body s h hne
    exact ⟨hp, ht⟩

/-- C4 witness: the invariant theorem applied at the initial state and a
concrete inbound message. -/
theorem c4_at_most_one_pending_timer_witness :
    TimerInv initSt ∧
    TimerInv (step envGood (Op.sms "hi") initSt) ∧
    (incoming_sms envGood "hi" initSt).state.pending = [initSt.next_tid] :=
  ⟨c4_at_most_one_pending_timer.1,
   c4_at_most_one_pending_timer.2.1 envGood (Op.sms "hi") initSt
     c4_at_most_one_pending_timer.1,
   (c4_at_most_one_pending_timer.2.2 envGood "hi" initSt
     c4_at_most_one_pending_timer.1 (by decide)).1⟩

/-! C3: the inbound SMS handler. -/

/-- Recognizer of the scroll-render invocation marker. -/
def isRenderScroll : Event → Bool
  | Event.renderScroll _ => true
  | _ => false

@[simp]
lemma kill_display_filter_render (env : Env) (s : St) :
    (kill_display env s).2.filter isRenderScroll = [] := by
  unfold kill_display
  split <;> first | rfl | (split <;> first | rfl | (split <;> rfl))

@[simp]
lemma show_scroll_filter_render (env : Env) (text : String) (s : St) :
    (show_scroll env text s).2.filter isRenderScroll = [Event.renderScroll text] := by
  unfold show_scroll
  split <;> simp [isRenderScroll, List.filter_append]

/-- C3: a non-empty inbound SMS sets the mode to sms, cancels the prior
timer (it is no longer pending), performs exactly one scroll-render
invocation carrying the stripped text, arms a fresh timer of duration
SMS_DURATION = 30, and answers with a reply echoing that duration. -/
theorem c3_notify_message (env : Env) (body : String) (s : St)
    (hInv : TimerInv s) (hne : (pyStrip body).isEmpty = false) :
    (incoming_sms env body s).state.mode = Mode.sms ∧
    (incoming_sms env body s).state.pending = [s.next_tid] ∧
    (∀ t, s.sms_timer = some t →
      Event.cancelTimer t.tid ∈ (incoming_sms env body s).events ∧
      t.tid ∉ (incoming_sms env body s).state.pending) ∧
    (incoming_sms env body s).events.filter isRenderScroll =
      [Event.renderScroll (pyStrip body)] ∧
    (incoming_sms env body s).state.sms_timer =
      some { tid := s.next_tid, duration := SMS_DURATION } ∧
    Event.armTimer s.next_tid SMS_DURATION ∈ (incoming_sms env body s).events ∧
    (incoming_sms env body s).reply =
      "Displaying for " ++ toString SMS_DURATION ++ "s: " ++ pyStrip body ∧
    toString SMS_DURATION = "30" := by
  obtain ⟨hp, ht, hn, hmode⟩ := incoming_sms_state_facts env body s hInv hne
  refine ⟨hmode, hp, ?_, ?_, ht, ?_, ?_, by decide⟩
  · intro t0 hst
    have hlt : t0.tid < s.next_tid := hInv.2.2 t0 hst
    constructor
    · simp [incoming_sms, hne, hst]
    · rw [hp]
      simp
      omega
  · cases hst : s.sms_timer with
    | none => simp [incoming_sms, hne, hst, isRenderScroll, List.filter_append]
    | some t0 => simp [incoming_sms, hne, hst, isRenderScroll, List.filter_append]
  · cases hst : s.sms_timer with
    | none => simp [incoming_sms, hne, hst]
    | some t0 => simp [incoming_sms, hne, hst]
  · simp [incoming_sms, hne]

/-- C3 witness: the handler theorem applied at the initial state with the
concrete message HELLO. -/
theorem c3_notify_message_witness :
    TimerInv initSt ∧ (pyStrip "HELLO").isEmpty = false ∧
    ((incoming_sms envGood "HELLO" initSt).state.mode = Mode.sms ∧
     (incoming_sms envGood "HELLO" initSt).state.pending = [initSt.next_tid] ∧
     (∀ t, initSt.sms_timer = some t →
       Event.cancelTimer t.tid ∈ (incoming_sms envGood "HELLO" initSt).events ∧
       t.tid ∉ (incoming_sms envGood "HELLO" initSt).state.pending) ∧
     (incoming_sms envGood "HELLO" initSt).events.filter isRenderScroll =
       [Event.renderScroll (pyStrip "HELLO")] ∧
     (incoming_sms envGood "HELLO" initSt).state.sms_timer =
       some { tid := initSt.next_tid, duration := SMS_DURATION } ∧
     Event.armTimer initSt.next_tid SMS_DURATION ∈
       (incoming_sms envGood "HELLO" initSt).events ∧
     (incoming_sms envGood "HELLO" initSt).reply =
       "Displaying for " ++ toString SMS_DURATION ++ "s: " ++ pyStrip "HELLO" ∧
     toString SMS_DURATION = "30") :=
  ⟨⟨by simp [initSt], fun tid h => by simp [initSt] at h,
    fun t h => by simp [initSt] at h⟩,
   by decide,
   c3_notify_message envGood "HELLO" initSt
     ⟨by simp [initSt], fun tid h => by simp [initSt] at h,
      fun t h => by simp [initSt] at h⟩
     (by decide)⟩

/-! Process invariant: at most one live render process. -/

/-- The process invariant: the live list is duplicate-free and every live
pid is the tracked display handle. -/
def ProcInv (s : St) : Prop :=
  s.live.Nodup ∧ ∀ p ∈ s.live, s.display_proc = some p

lemma procInv_live_cases (s : St) (hInv : ProcInv s) :
    s.live = [] ∨ ∃ p, s.live = [p] ∧ s.display_proc = some p := by
  obtain ⟨hnd, hmem⟩ := hInv
  cases hl : s.live with
  | nil => exact Or.inl rfl
  | cons a rest =>
    have ha : s.display_proc = some a :=
      hmem a (by rw [hl]; exact List.mem_cons_self a rest)
    cases rest with
    | nil => exact Or.inr ⟨a, rfl, ha⟩
    | cons b rest2 =>
      have hb : s.display_proc = some b := hmem b (by rw [hl]; simp)
      rw [ha] at hb
      injection hb with hab
      rw [hl] at hnd
      rw [← hab] at hnd
      simp at hnd

lemma procInv_length (s : St) (hInv : ProcInv s) : s.live.length ≤ 1 := by
  rcases procInv_live_cases s hInv with h | ⟨p, h, -⟩ <;> simp [h]

lemma procInv_of_live_nil (s : St) (h : s.live = []) : ProcInv s := by
  constructor
  · rw [h]
    exact List.nodup_nil
  · intro p hp
    rw [h] at hp
    simp at hp

lemma procInv_of_fields (s s2 : St) (hInv : ProcInv s)
    (hl : s2.live = s.live) (hd : s2.display_proc = s.display_proc) :
    ProcInv s2 := by
  obtain ⟨h1, h2⟩ := hInv
  constructor
  · rw [hl]
    exact h1
  · intro p hp
    rw [hl] at hp
    rw [hd]
    exact h2 p hp

lemma kill_display_live_nil (env : Env) (s : St) (hInv : ProcInv s) :
    (kill_display env s).1.live = [] := by
  rcases procInv_live_cases s hInv with h | ⟨p, hl, hd⟩
  · unfold kill_display
    cases hdp : s.display_proc <;> simp [h]
  · unfold kill_display
    simp [hd, hl]

lemma kill_display_procInv (env : Env) (s : St) (hInv : ProcInv s) :
    ProcInv (kill_display env s).1 :=
  procInv_of_live_nil _ (kill_display_live_nil env s hInv)

lemma start_text_example_procInv (env : Env) (s : St) (hInv : ProcInv s) :
    ProcInv (start_text_example env s).1 := by
  have hk := kill_display_live_nil env s hInv
  unfold start_text_example
  dsimp only
  split
  · constructor
    · simp [hk]
    · intro q hq
      simp [hk] at hq
      simp [hq]
  · exact procInv_of_live_nil _ hk

lemma show_scroll_procInv (env : Env) (text : String) (s : St)
    (hInv : ProcInv s) : ProcInv (show_scroll env text s).1 := by
  have hk := kill_display_live_nil env s hInv
  unfold show_scroll
  dsimp only
  split
  · constructor
    · simp [hk]
    · intro q hq
      simp [hk] at hq
      simp [hq]
  · exact procInv_of_live_nil _ hk

lemma restart_and_write_procInv (env : Env) (lf : Int) (pr : Option Nat)
    (s : St) (hInv : ProcInv s) :
    ProcInv (restart_and_write env lf pr s).2.1 := by
  unfold restart_and_write
  split
  · exact hInv
  · dsimp only
    cases hr : (start_text_example env s).2.2 with
    | error e =>
      simp only [hr]
      exact start_text_example_procInv env s hInv
    | ok p =>
      simp only [hr, write_phase_state]
      exact start_text_example_procInv env s hInv

lemma train_loop_iter_procInv (env : Env) (ls : LoopSt) (s : St)
    (hInv : ProcInv s) : ProcInv (train_loop_iter env ls s).2.1 := by
  by_cases hm : s.mode = Mode.train
  · unfold train_loop_iter
    rw [if_neg (by simp [hm])]
    dsimp only
    have hInv1 : ProcInv { s with train_lines := fetch_train_times env } :=
      procInv_of_fields s _ hInv rfl rfl
    by_cases hdue : env.now - ls.last_fetch ≥ (POLL_INTERVAL : Int)
    · simp only [if_pos hdue]
      cases ls.proc with
      | none => exact restart_and_write_procInv env env.now none _ hInv1
      | some p =>
        dsimp only
        split
        · rw [write_phase_state]
          exact hInv1
        · exact restart_and_write_procInv env env.now (some p) _ hInv1
    · simp only [if_neg hdue]
      cases ls.proc with
      | none => exact restart_and_write_procInv env ls.last_fetch none s hInv
      | some p =>
        dsimp only
        split
        · rw [write_phase_state]
          exact hInv
        · exact restart_and_write_procInv env ls.last_fetch (some p) s hInv
  · rw [train_loop_iter_nontrain env ls s hm]
    exact hInv

/-- Every shared-state operation preserves the process invariant. -/
lemma procInv_step (env : Env) (o : Op) (s : St) (hInv : ProcInv s) :
    ProcInv (step env o s) := by
  cases o with
  | sms body =>
    show ProcInv (incoming_sms env body s).state
    by_cases he : (pyStrip body).isEmpty = true
    · have heq : incoming_sms env body s =
          { state := s, reply := "Empty message.", status := 200, events := [] } := by
        simp [incoming_sms, he]
      rw [heq]
      exact hInv
    · have hne : (pyStrip body).isEmpty = false := by
        cases h : (pyStrip body).isEmpty
        · rfl
        · exact absurd h he
      cases hst : s.sms_timer with
      | none =>
        have h1 : ProcInv { s with mode := Mode.sms } :=
          procInv_of_fields s _ hInv rfl rfl
        have h2 := show_scroll_procInv env (pyStrip body) _ h1
        refine procInv_of_fields _ _ h2 ?_ ?_
        · simp [incoming_sms, hne, hst]
        · simp [incoming_sms, hne, hst]
      | some t0 =>
        have h1 : ProcInv
            { s with mode := Mode.sms, pending := s.pending.erase t0.tid } :=
          procInv_of_fields s _ hInv rfl rfl
        have h2 := show_scroll_procInv env (pyStrip body) _ h1
        refine procInv_of_fields _ _ h2 ?_ ?_
        · simp [incoming_sms, hne, hst]
        · simp [incoming_sms, hne, hst]
  | fire tid =>
    show ProcInv (timer_fired tid s)
    unfold timer_fired switch_to_train
    split
    · exact procInv_of_fields s _ hInv rfl rfl
    · exact hInv
  | iter ls => exact train_loop_iter_procInv env ls s hInv
  | clear =>
    show ProcInv (kill_display env s).1
    exact kill_display_procInv env s hInv
  | died p =>
    show ProcInv { s with live := s.live.erase p }
    obtain ⟨h1, h2⟩ := hInv
    constructor
    · exact h1.erase p
    · intro q hq
      exact h2 q (List.mem_of_mem_erase hq)

/-- C5: the initial state has no live render process; every operation
preserves the invariant that at most one render process is live; a kill of
a live process terminates it gracefully and escalates to a forced kill
after the KILL_TIMEOUT = 5 wait only when the process is unresponsive,
leaving it no longer live; and both starters emit exactly the kill events
before their spawn event. -/
theorem c5_at_most_one_live_process :
    ProcInv initSt ∧
    (∀ env o s, ProcInv s →
      ProcInv (step env o s) ∧ (step env o s).live.length ≤ 1) ∧
    (∀ env s p, ProcInv s → s.display_proc = some p → p ∈ s.live →
      (kill_display env s).2 =
        (if env.responsive p then [Event.terminate p, Event.waitOk p]
         else [Event.terminate p, Event.forceKill p KILL_TIMEOUT]) ∧
      p ∉ (kill_display env s).1.live) ∧
    (∀ env text s, (show_scroll env text s).2 =
      Event.renderScroll text :: (kill_display env s).2 ++
        (if env.scrollerExists
         then [Event.spawn (kill_display env s).1.next_pid] else [])) ∧
    (∀ env s, (start_text_example env s).2.1 =
      (kill_display env s).2 ++
        (if env.textExampleExists
         then [Event.spawn (kill_display env s).1.next_pid] else [])) ∧
    KILL_TIMEOUT = 5 := by
  refine ⟨?_, ?_, ?_, ?_, ?_, rfl⟩
  · exact procInv_of_live_nil initSt rfl
  · intro env o s h
    have h2 := procInv_step env o s h
    exact ⟨h2, procInv_length _ h2⟩
  · intro env s p hInv hd hl
    constructor
    · simp [kill_display, hd, hl]
    · rw [kill_display_live_nil env s hInv]
      simp
  · intro env text s
    unfold show_scroll
    dsimp only
    split
    · simp
    · simp
  · intro env s
    unfold start_text_example
    dsimp only
    split
    · simp
    · simp

/-- A state with one live tracked process, for the C5 witness. -/
def c5s : St := { initSt with display_proc := some 7, live := [7] }

lemma c5s_procInv : ProcInv c5s := by
  constructor
  · simp [c5s, initSt]
  · intro p hp
    simp [c5s, initSt] at hp
    simp [c5s, initSt, hp]

/-- C5 witness: the invariant theorem applied at a concrete state holding
one live process. -/
theorem c5_at_most_one_live_process_witness :
    ProcInv initSt ∧
    (ProcInv (step envGood Op.clear c5s) ∧
      (step envGood Op.clear c5s).live.length ≤ 1) ∧
    ((kill_display envGood c5s).2 =
        (if envGood.responsive 7 then [Event.terminate 7, Event.waitOk 7]
         else [Event.terminate 7, Event.forceKill 7 KILL_TIMEOUT]) ∧
      7 ∉ (kill_display envGood c5s).1.live) :=
  ⟨c5_at_most_one_live_process.1,
   c5_at_most_one_live_process.2.1 envGood Op.clear c5s c5s_procInv,
   c5_at_most_one_live_process.2.2.1 envGood c5s 7 c5s_procInv rfl
     (by simp [c5s, initSt])⟩

/-! C6: reversion to the train display. -/

/-- C6: after a pending revert timer fires, the mode is train again and the
stored train lines are untouched; the following loop iteration, when no
fetch is due and the display process is alive, writes exactly the stored
lines (stacked with newlines) to it; a state that never stored a fetch
still holds the initial ("Loading...", "") placeholder. -/
theorem c6_revert_renders_last_status (env : Env) (ls : LoopSt) (s : St)
    (tid p : Nat) (htid : tid ∈ s.pending)
    (hproc : ls.proc = some p)
    (hlive : (timer_fired tid s).live.contains p = true)
    (hnofetch : ¬ env.now - ls.last_fetch ≥ (POLL_INTERVAL : Int))
    (hw : env.writeOk1 = true) :
    (timer_fired tid s).mode = Mode.train ∧
    (timer_fired tid s).train_lines = s.train_lines ∧
    Event.write p (s.train_lines.1 ++ "\n" ++ s.train_lines.2 ++ "\n") ∈
      (train_loop_iter env ls (timer_fired tid s)).2.2.1 ∧
    initSt.train_lines = ("Loading...", "") := by
  have hmode : (timer_fired tid s).mode = Mode.train := by
    unfold timer_fired switch_to_train
    rw [if_pos htid]
  have hlines : (timer_fired tid s).train_lines = s.train_lines := by
    unfold timer_fired switch_to_train
    rw [if_pos htid]
  refine ⟨hmode, hlines, ?_, rfl⟩
  unfold train_loop_iter
  rw [if_neg (by simp [hmode])]
  dsimp only
  simp only [if_neg hnofetch]
  rw [hproc]
  dsimp only
  rw [if_pos hlive]
  unfold write_phase
  rw [if_pos hw]
  rw [hlines]
  by_cases hi : env.interrupted = true
  · simp [hi]
  · by_cases h2 : env.writeOk2 = true
    · simp [hi, h2]
    · simp [hi, h2]

/-- The state right before a revert: sms mode, one pending timer, live
display process 3. -/
def c6s : St :=
  { mode := Mode.sms
    train_lines := ("B:10", "M:--")
    sms_timer := some { tid := 0, duration := 30 }
    pending := [0]
    display_proc := some 3
    live := [3]
    next_pid := 4
    next_tid := 1 }

/-- Loop-local variables for the C6 witness: recent fetch, live handle. -/
def c6ls : LoopSt := { last_fetch := 90, proc := some 3 }

/-- C6 witness: the reversion theorem applied at a concrete pending timer
and live process. -/
theorem c6_revert_renders_last_status_witness :
    (0 ∈ c6s.pending) ∧ c6ls.proc = some 3 ∧
    (timer_fired 0 c6s).live.contains 3 = true ∧
    ¬ envGood.now - c6ls.last_fetch ≥ (POLL_INTERVAL : Int) ∧
    envGood.writeOk1 = true ∧
    ((timer_fired 0 c6s).mode = Mode.train ∧
     (timer_fired 0 c6s).train_lines = c6s.train_lines ∧
     Event.write 3 (c6s.train_lines.1 ++ "\n" ++ c6s.train_lines.2 ++ "\n") ∈
       (train_loop_iter envGood c6ls (timer_fired 0 c6s)).2.2.1 ∧
     initSt.train_lines = ("Loading...", "")) :=
  ⟨by decide, by decide, by decide, by decide, by decide,
   c6_revert_renders_last_status envGood c6ls c6s 0 3 (by decide) (by decide)
     (by decide) (by decide) (by decide)⟩

/-! C8: missing render binaries. -/

/-- Recognizer of warning events. -/
def isWarn : Event → Bool
  | Event.warn _ => true
  | _ => false

@[simp]
lemma kill_display_filter_warn (env : Env) (s : St) :
    (kill_display env s).2.filter isWarn = [] := by
  unfold kill_display
  split <;> first | rfl | (split <;> first | rfl | (split <;> rfl))

/-- The good environment with the text-scroller binary missing. -/
def envMissScroll : Env := { envGood with scrollerExists := false }

/-- The good environment with the text-example binary missing. -/
def envMissText : Env := { envGood with textExampleExists := false }

/-- The good environment with both render binaries missing. -/
def envMissBoth : Env :=
  { envGood with scrollerExists := false, textExampleExists := false }

/-- C8 counterexample: with the scroller binary missing, a scroll render
performs no warning log at all (its event trace is just the invocation
marker), and with the text-example binary missing the static render path
raises a file-not-found error instead of degrading, so the claimed
per-invocation warning and no-crash behavior are both false on these
concrete inputs. -/
theorem c8_counterexample :
    (show_scroll envMissScroll "HI" initSt).2.filter isWarn = [] ∧
    (show_scroll envMissScroll "HI" initSt).2 = [Event.renderScroll "HI"] ∧
    (start_text_example envMissText initSt).2.2 =
      Except.error StartErr.fileNotFound :=
  ⟨by decide, by decide, rfl⟩

/-- C8 (amended): with render binaries missing, the scroll path degrades
silently to a no-op (no process spawned, no exception, and no
per-invocation warning), the startup check logs one warning per missing
binary, and the static path raises a file-not-found error out of the
render path instead of degrading. -/
theorem c8_missing_binary_degrades (env : Env) (text : String) (s : St)
    (hs : env.scrollerExists = false) (ht : env.textExampleExists = false) :
    (show_scroll env text s).1.display_proc = none ∧
    (show_scroll env text s).2 =
      Event.renderScroll text :: (kill_display env s).2 ∧
    (show_scroll env text s).2.filter isWarn = [] ∧
    "WARNING: text-example not found." ∈ startup_warnings env ∧
    "WARNING: text-scroller not found. Run make in utils/." ∈ startup_warnings env ∧
    (start_text_example env s).2.2 = Except.error StartErr.fileNotFound := by
  refine ⟨?_, ?_, ?_, ?_, ?_, ?_⟩
  · simp [show_scroll, hs]
  · simp [show_scroll, hs]
  · simp [show_scroll, hs, isWarn]
  · simp [startup_warnings, hs, ht]
  · simp [startup_warnings, hs, ht]
  · simp [start_text_example, ht]

/-- C8 witness: the amended theorem applied with both binaries missing. -/
theorem c8_missing_binary_degrades_witness :
    envMissBoth.scrollerExists = false ∧
    envMissBoth.textExampleExists = false ∧
    ((show_scroll envMissBoth "HI" initSt).1.display_proc = none ∧
     (show_scroll envMissBoth "HI" initSt).2 =
       Event.renderScroll "HI" :: (kill_display envMissBoth initSt).2 ∧
     (show_scroll envMissBoth "HI" initSt).2.filter isWarn = [] ∧
     "WARNING: text-example not found." ∈ startup_warnings envMissBoth ∧
     "WARNING: text-scroller not found. Run make in utils/." ∈
       startup_warnings envMissBoth ∧
     (start_text_example envMissBoth initSt).2.2 =
       Except.error StartErr.fileNotFound) :=
  ⟨rfl, rfl,
   c8_missing_binary_degrades envMissBoth "HI" initSt rfl rfl⟩

end SmsDisplay
